import Mathlib

/-
Verification of the product-scraper repository.

The repository is a collection of per-retailer web scrapers that POST a
flat product record to a small FastAPI CRUD service (DatabseAPI.py) backed
by one MySQL handler class (mysql_db.py).  This file gives a shallow
embedding of the pieces of that code the checked claims are about:

* `MySQLDB.*`          — mysql_db.py (insert_data / update_data /
                         _execute_query / get_data), including the Python
                         `try/finally` semantics of their shared shape;
* `insert_endpoint`, `update_product_info`, `update_barcode_fields`, … —
                         the FastAPI endpoints of DatabseAPI.py;
* `sqlTables`          — the table each endpoint's SQL statements target;
* `Blinkit.*`          — Blinkit.py (unit normaliser, image-URL JSON
                         encoding, the product record built by
                         product_details_import, _safe_get retry loop);
* `amazon.*`, `Gopal.*`, `Jiomart.*` — the retry loops of amazon.py,
                         Gopal.py and Jiomart.py.

External effects (the browser, the network, the MySQL server, random
jitter) are modelled by explicit outcome oracles passed to the embedded
control flow; machine-level details that no claim depends on are noted in
comments at the definition they concern.
-/

namespace ProductScraper

/-- Python values as they occur in JSON request bodies and database cells. -/
inductive PyVal where
  | str (s : String)
  | int (n : Int)
  | bool (b : Bool)
  | null
  | dict (fields : List (String × PyVal))
  | list (items : List PyVal)

/-- Rows returned by the MySQL cursor: column name to cell value. -/
abbrev Row := List (String × PyVal)

/-! ## mysql_db.py — class MySQLDB

Each public method has the shape

```
try:
  if not self._connect():
    return <sentinel>
  cursor = self.connection.cursor()
  cursor.execute(...)
  ...
  return <value>
except mysql.connector.Error as err:
  ...
  return <sentinel>
finally:
  if cursor:
    cursor.close()
  self._disconnect()
```

The local variable `cursor` is assigned only after `_connect()` succeeds.
Python's `finally` block runs even when the `try` block returns; if
`_connect()` failed, `cursor` was never assigned and the `if cursor:` test
raises `UnboundLocalError`, discarding the pending sentinel return value.
`runFinally` captures exactly that: the body's result survives the
`finally` block only when `cursor` was assigned. -/

/-- Exceptions that can escape the MySQLDB methods. -/
inductive PyExn where
  | unboundLocalError
deriving DecidableEq

/-- Result of running a Python function: a returned value or an escaped
exception. -/
inductive PyResult (α : Type) where
  | val (a : α)
  | exn (e : PyExn)
deriving DecidableEq

/-- Semantics of the shared `finally: if cursor: cursor.close()` epilogue:
when the local `cursor` was never assigned, referencing it raises
`UnboundLocalError`, which replaces the body's pending return value. -/
def runFinally {α : Type} (cursorAssigned : Bool) (bodyResult : α) : PyResult α :=
  if cursorAssigned then .val bodyResult else .exn .unboundLocalError

/-- Outcome of one MySQLDB call's interaction with the server:
`_connect()` fails, or `cursor.execute` raises `mysql.connector.Error`,
or the statement succeeds (`execOk` carries `cursor.lastrowid` for
INSERTs and `cursor.rowcount` for UPDATEs). -/
inductive DBOutcome where
  | connFail
  | execErr
  | execOk (n : Nat)
deriving DecidableEq

/-- Outcome of one SELECT-style call: `_connect()` fails, the query
raises `mysql.connector.Error`, or it returns the fetched rows. -/
inductive QueryOutcome where
  | connFail
  | queryErr
  | rows (rs : List Row)

namespace MySQLDB

/-- mysql_db.py lines 128-166, `MySQLDB.insert_data`: on connection
failure the body returns 0 before `cursor` is assigned; on
`mysql.connector.Error` the except branch returns 0; on success it
returns `cursor.lastrowid`.  (The pre-processing that json.dumps's dict
values only re-encodes the payload and cannot change which branch runs.) -/
def insert_data : DBOutcome → PyResult Nat
  | .connFail => runFinally false 0
  | .execErr => runFinally true 0
  | .execOk lastrowid => runFinally true lastrowid

/-- mysql_db.py lines 168-199, `MySQLDB.update_data`: on connection
failure the body returns False before `cursor` is assigned; on
`mysql.connector.Error` it returns False; on success it returns
`cursor.rowcount > 0`. -/
def update_data : DBOutcome → PyResult Bool
  | .connFail => runFinally false false
  | .execErr => runFinally true false
  | .execOk rowcount => runFinally true (decide (0 < rowcount))

/-- mysql_db.py lines 201-233, `MySQLDB._execute_query`: on connection
failure the body returns [] before `cursor` is assigned; on
`mysql.connector.Error` it returns []; on success it returns the fetched
rows (already dictionaries for the dictionary cursor). -/
def _execute_query : QueryOutcome → PyResult (List Row)
  | .connFail => runFinally false []
  | .queryErr => runFinally true []
  | .rows rs => runFinally true rs

/-- mysql_db.py lines 78-126, `MySQLDB.get_data`: same shape as
`_execute_query`.  The per-cell json.loads post-processing of rows
(lines 104-116) catches its own `JSONDecodeError` and keeps the raw
value, so it cannot change the error behaviour; it is not modelled
because no claim depends on the reshaped cell values. -/
def get_data : QueryOutcome → PyResult (List Row)
  | .connFail => runFinally false []
  | .queryErr => runFinally true []
  | .rows rs => runFinally true rs

end MySQLDB

/-! ## DatabseAPI.py — POST /insert -/

/-- Responses of a FastAPI endpoint: a 200 JSON object, or an
`HTTPException` with a status code and detail string. -/
inductive ApiResponse where
  | ok (body : List (String × PyVal))
  | err (status : Nat) (detail : String)

/-- DatabseAPI.py lines 44-69, endpoint `POST /insert`: reject an empty
JSON body with 422; call `MySQLDB.insert_data("scrapped_data", data)`;
reject a falsy inserted id (0) with 500; otherwise return
`{"id": inserted_id, "message": "Data inserted successfully",
"success": True}`.  An exception escaping `insert_data` is caught by the
trailing `except Exception` and turned into a 400. -/
def insert_endpoint (data : List (String × PyVal)) (db : DBOutcome) : ApiResponse :=
  if data.isEmpty then .err 422 "JSON body is required"
  else
    match MySQLDB.insert_data db with
    | .exn _ => .err 400 "Invalid JSON"
    | .val inserted_id =>
      if inserted_id = 0 then .err 500 "Failed to insert data into the database"
      else .ok [("id", .int inserted_id),
                ("message", .str "Data inserted successfully"),
                ("success", .bool true)]

/-! ## JSON values

The scrapers store the image-URL list as the string
`json.dumps({"image_urls": [...]}, indent=2)` and the API reads it back
with `json.loads`.  The claims inspect that string only through a JSON
parser, so serialisation by Python's json library is modelled at the JSON
value level: `Option Json` stands for the stored text, `none` for the
empty string `""` (which is not valid JSON), `some j` for `json.dumps j`
(whose `json.loads` is `j` again). -/

/-- JSON values. -/
inductive Json where
  | null
  | bool (b : Bool)
  | num (n : Int)
  | str (s : String)
  | arr (items : List Json)
  | obj (fields : List (String × Json))

/-- Python `dict.get(key)` on a parsed JSON value: a lookup that succeeds
only on objects. -/
def Json.get? (j : Json) (key : String) : Option Json :=
  match j with
  | .obj fields => fields.lookup key
  | _ => none

namespace Blinkit

/-- Blinkit.py lines 198-208, `Blinkit.extract_image_urls_text`: for a
falsy argument (`None` or the empty list) return the empty string `""`;
otherwise return `json.dumps({"image_urls": image_urls}, indent=2)`. -/
def extract_image_urls_text (image_urls : Option (List String)) : Option Json :=
  match image_urls with
  | none => none
  | some [] => none
  | some urls => some (.obj [("image_urls", .arr (urls.map .str))])

end Blinkit

/-- DatabseAPI.py lines 230-233, the `main_images` computation of endpoint
`POST /images`: `main_images` starts as `[]`; when the `images` cell is
neither `""` nor NULL it becomes
`json.loads(images_cell).get("image_urls", [])`. -/
def get_all_images_main (images_cell : Option Json) : Json :=
  match images_cell with
  | none => .arr []
  | some j => (j.get? "image_urls").getD (.arr [])

/-! ## Blinkit.py — unit-of-measure normalisation

`get_mass_measurement_unit` first runs
`re.sub(r'\d+(\.\d+)?', '', str(unit)).strip().lower()` and then scans
`unit_mappings` for a mapping one of whose variation strings occurs in the
cleaned text. -/

/-- Scanner state for `re.sub(r'\d+(\.\d+)?', '', s)`: outside a match,
inside the integer digit run, just after a dot that may continue the
match, or inside the fractional digit run. -/
inductive NumScanState where
  | norm
  | digits
  | dotPending
  | frac

/-- One character step of the `\d+(\.\d+)?` deletion scanner; returns the
next state and the characters emitted (kept) by this step. -/
def stripNumStep : NumScanState → Char → NumScanState × List Char
  | .norm, c => if c.isDigit then (.digits, []) else (.norm, [c])
  | .digits, c =>
    if c.isDigit then (.digits, [])
    else if c = '.' then (.dotPending, [])
    else (.norm, [c])
  | .dotPending, c => if c.isDigit then (.frac, []) else (.norm, ['.', c])
  | .frac, c => if c.isDigit then (.frac, []) else (.norm, [c])

/-- Run the deletion scanner over the remaining characters; a pending dot
that turned out not to start a fractional part is emitted at the end. -/
def stripNumsGo : NumScanState → List Char → List Char
  | st, [] => match st with | .dotPending => ['.'] | _ => []
  | st, c :: rest =>
    let step := stripNumStep st c
    step.2 ++ stripNumsGo step.1 rest

/-- Characters of `re.sub(r'\d+(\.\d+)?', '', s)`: every maximal digit
run, together with an immediately following `.digits` fractional part,
is deleted. -/
def stripNums (s : String) : List Char :=
  stripNumsGo .norm s.data

/-- Python `str.strip()`: drop leading and trailing whitespace. -/
def pyStrip (l : List Char) : List Char :=
  ((l.dropWhile Char.isWhitespace).reverse.dropWhile Char.isWhitespace).reverse

/-- Python `needle in hay` on strings: substring containment. -/
def containsSub : List Char → List Char → Bool
  | [], needle => needle.isEmpty
  | c :: t, needle => needle.isPrefixOf (c :: t) || containsSub t needle

/-- Python `str.upper()` (the strings involved are ASCII). -/
def pyUpper (s : String) : String := String.mk (s.data.map Char.toUpper)

/-- Blinkit.py lines 168-169: the cleaned unit text,
`re.sub(r'\d+(\.\d+)?', '', str(unit)).strip().lower()`. -/
def cleanedUnit (u : String) : List Char :=
  (pyStrip (stripNums u)).map Char.toLower

/-- Blinkit.py lines 172-177, the `unit_mappings` dictionary (Python
dicts iterate in insertion order, so `grams` is scanned first). -/
def unit_mappings : List (String × List String) :=
  [("grams", ["gram", "grams", "kilogram", "kilograms", "kg", "g"]),
   ("millilitre", ["ml", "millilitre", "millilitres", "milliliter", "milliliters",
                   "liter", "litre", "liters", "litres", "l"])]

namespace Blinkit

/-- Blinkit.py lines 160-183, `Blinkit.get_mass_measurement_unit`: a
falsy argument (`None` or `""`) gives `None`; otherwise the first
mapping one of whose variations occurs in the cleaned text gives its
upper-cased standard unit, and `None` is returned when no mapping
matches. -/
def get_mass_measurement_unit (unit : Option String) : Option String :=
  match unit with
  | none => none
  | some u =>
    if u = "" then none
    else
      let cleaned := cleanedUnit u
      match unit_mappings.find? (fun m => m.2.any (fun v => containsSub cleaned v.data)) with
      | some m => some (pyUpper m.1)
      | none => none

end Blinkit

/-! ## Blinkit.py — the record POSTed to /insert -/

/-- Field values drawn from one snippet of the Blinkit listing payload
(the `data.get(...).get("text", None)` access chains). -/
structure BlinkitSnippet where
  name : Option String
  brand_name : Option String
  variant : Option String
  normal_price : Option String
  images : Option (List String)

/-- A Python value that is `None` or a string. -/
def optStr : Option String → PyVal
  | none => .null
  | some s => .str s

/-- The product record built by `Blinkit.product_details_import`
(Blinkit.py lines 251-264); the `addtional_detail` entry (the raw
snippet blob) is not needed by any claim and omitted. -/
structure BlinkitProductRecord where
  variant_id : PyVal
  name : PyVal
  product_url : PyVal
  brand_name : PyVal
  diet : PyVal
  mass_measurement_unit : PyVal
  net_weight : PyVal
  mrp : PyVal
  images : Option Json
  source : String
  status : String

namespace Blinkit

/-- Blinkit.py lines 251-264: the record `product_details_import` POSTs
to `/insert` for one snippet. -/
def product_details_import_record (d : BlinkitSnippet) : BlinkitProductRecord :=
  { variant_id := .null
    name := optStr d.name
    product_url := .null
    brand_name := optStr d.brand_name
    diet := .null
    mass_measurement_unit := optStr (get_mass_measurement_unit d.variant)
    net_weight := optStr d.variant
    mrp := optStr d.normal_price
    images := extract_image_urls_text d.images
    source := "Blinkit"
    status := "raw" }

end Blinkit

/-! ## DatabseAPI.py — update endpoints and their written fields -/

/-- Request body of `POST /productinfo/update` (DatabseAPI.py lines
29-35): the id plus five optional string fields. -/
structure ProductInfoRequest where
  id : Nat
  brand_name : Option String
  barcode : Option String
  ingredients_main_ocr : Option String
  nutrients_main_ocr : Option String
  allergen_information : Option String

/-- Python truthiness of an `Optional[str]` field: `None` and `""` are
falsy, every other string is truthy. -/
def truthy : Option String → Bool
  | none => false
  | some s => !s.isEmpty

/-- DatabseAPI.py lines 451-463: the `update_fields` dictionary built by
`update_product_info`; note that a truthy `barcode` contributes
`barcode_exists = 1` as well. -/
def update_product_info_fields (r : ProductInfoRequest) : List (String × PyVal) :=
  (if truthy r.brand_name then [("brand_name", .str (r.brand_name.getD ""))] else []) ++
  (if truthy r.barcode then
      [("barcode", .str (r.barcode.getD "")), ("barcode_exists", .int 1)] else []) ++
  (if truthy r.ingredients_main_ocr then
      [("ingredients_main_ocr", .str (r.ingredients_main_ocr.getD ""))] else []) ++
  (if truthy r.nutrients_main_ocr then
      [("nutrients_main_ocr", .str (r.nutrients_main_ocr.getD ""))] else []) ++
  (if truthy r.allergen_information then
      [("allergen_information", .str (r.allergen_information.getD ""))] else [])

/-- DatabseAPI.py line 300, `POST /barcode`: the fields written by
`db.update_data("scrapped_data", {"barcode": barcode, "barcode_exists": 1}, ...)`. -/
def update_barcode_fields (barcode : String) : List (String × PyVal) :=
  [("barcode", .str barcode), ("barcode_exists", .int 1)]

/-- DatabseAPI.py line 400, `GET /added`: the fields written by its
`db.update_data` call. -/
def added_fields : List (String × PyVal) :=
  [("is_uploaded", .bool true)]

/-- DatabseAPI.py lines 526-534, `POST /image/update`: the fields written
by its `db.update_data` call, including the status transition to
`imageprocessed`. -/
def update_images_fields (front_img back_img nutrients_img ingredients_img : String) :
    List (String × PyVal) :=
  [("front_img", .str front_img),
   ("back_img", .str back_img),
   ("nutrients_img", .str nutrients_img),
   ("ingredients_img", .str ingredients_img),
   ("status", .str "imageprocessed")]

/-! ## Table semantics of an UPDATE keyed by id -/

/-- The scrapped_data table: a row (column valuation) for every id. -/
abbrev Table := Nat → String → PyVal

/-- Applying a SET clause to one row: listed columns take their new
value, all other columns keep the row's value. -/
def applyFields (fields : List (String × PyVal)) (row : String → PyVal) :
    String → PyVal :=
  fun col => (fields.lookup col).getD (row col)

/-- `UPDATE <table> SET <fields> WHERE id = targetId`: rows with another
id are untouched. -/
def applyUpdate (tbl : Table) (targetId : Nat) (fields : List (String × PyVal)) : Table :=
  fun i => if i = targetId then applyFields fields (tbl i) else tbl i

/-- Outcome of `POST /productinfo/update`: an `HTTPException` raised
before any SQL runs, or the updated table. -/
inductive UpdateOutcome where
  | badRequest (status : Nat)
  | applied (tbl : Table)

/-- DatabseAPI.py lines 440-480, endpoint `POST /productinfo/update`:
build `update_fields` from the truthy request fields, fail with 400 when
none is present, otherwise run the UPDATE keyed by `request.id`.  (The
endpoint additionally reports `success: False` when `update_data`
changed no row; that response detail does not affect the table.) -/
def update_product_info (r : ProductInfoRequest) (tbl : Table) : UpdateOutcome :=
  let fields := update_product_info_fields r
  if fields.isEmpty then .badRequest 400
  else .applied (applyUpdate tbl r.id fields)

/-! ## DatabseAPI.py — the table each endpoint's SQL targets -/

/-- The routes of DatabseAPI.py, in source order. -/
inductive Endpoint where
  | insert
  | insertUrl
  | getUrls
  | getUrl
  | truncateTable (table_name : String)
  | deleteUrl
  | images
  | data
  | barcode
  | barcodeids
  | rawids
  | imageprocessedids
  | added
  | producturl
  | productinfoUpdate
  | delete
  | imageUpdate

/-- Tables named in the SQL statements each endpoint issues, transcribed
from DatabseAPI.py: `/insert` inserts into scrapped_data (line 59);
`/insert-url` inserts into products_urls (line 87); `/get-urls` and
`/get-url` select from products_urls (lines 111, 140);
`/truncate-table/{table_name}` (line 168) and `/delete-url` (line 194)
call `db._execute_non_select_query`, and `/delete` (line 493) calls
`db.delete_data` — neither method is defined on `MySQLDB`, so all three
raise `AttributeError` before any SQL runs and issue no statement at
all; every other endpoint targets scrapped_data. -/
def sqlTables : Endpoint → List String
  | .insert => ["scrapped_data"]
  | .insertUrl => ["products_urls"]
  | .getUrls => ["products_urls"]
  | .getUrl => ["products_urls"]
  | .truncateTable _ => []
  | .deleteUrl => []
  | .images => ["scrapped_data"]
  | .data => ["scrapped_data"]
  | .barcode => ["scrapped_data"]
  | .barcodeids => ["scrapped_data"]
  | .rawids => ["scrapped_data"]
  | .imageprocessedids => ["scrapped_data"]
  | .added => ["scrapped_data"]
  | .producturl => ["scrapped_data"]
  | .productinfoUpdate => ["scrapped_data"]
  | .delete => []
  | .imageUpdate => ["scrapped_data"]

/-! ## Status values across the program -/

/-- Factscan/main/models.py lines 26-39: the choices of the `status`
column of scrapped_data. -/
def status_choices : List String :=
  ["raw", "combo", "bundle", "importedToRaw", "archive", "hold", "imageprocessed"]

/-- The `"status"` value in every product record a scraper POSTs to
`/insert`, transcribed per source location. -/
def scraperInsertStatuses : List (String × String) :=
  [("Atul.py:340", "raw"), ("Blinkit.py:262", "raw"), ("Bowlful.py:307", "raw"),
   ("Flipkart.py:362", "raw"), ("Gopal.py:371", "raw"), ("HerbalBAPS.py:466", "raw"),
   ("Jiomart.py:661", "raw"), ("Jiomart.py:698", "raw"), ("a.py:953", "raw"),
   ("strom.py:79", "raw"), ("Practice/Zepto.py:195", "raw"), ("Practice/Zepto.py:243", "raw"),
   ("Practice/Zepto.py:416", "raw"), ("Multi/A-2.py:511", "raw"), ("Multi/A-3.py:810", "raw")]

/-- The `MAX_RETRIES` constant of every scraper module, transcribed per
source location. -/
def scraperMaxRetries : List (String × Nat) :=
  [("Atul.py:59", 3), ("Blinkit.py:54", 3), ("Bowlful.py:64", 3), ("Flipkart.py:63", 3),
   ("Gopal.py:58", 3), ("HerbalBAPS.py:67", 3), ("Jiomart.py:101", 3), ("a.py:102", 3),
   ("amazon.py:52", 3), ("bni_connect.py:60", 3), ("hyugalife.py:57", 3),
   ("Practice/Zepto.py:60", 3), ("Multi/A-2.py:59", 3), ("Multi/A-3.py:76", 3)]

/-! ## Retry loops of the scrapers

A loop `for attempt in range(MAX_RETRIES): ...` is embedded as a
recursion over the attempt index; what each attempt's body does (page
loaded, exception raised, …) is supplied by an outcome oracle
`Nat → Outcome`, and the backoff sleeps the loop performs are collected
in a list in the order they happen.  Only the retry backoff sleeps are
collected; pacing sleeps on the success path (such as
`time.sleep(SCROLL_PAUSE_TIME + random.random())` after a page load)
are not backoffs and are not modelled. -/

namespace amazon

def MAX_RETRIES : Nat := 3
def SCROLL_PAUSE_TIME : Nat := 4

/-- Outcome of one `driver.get` attempt in `safe_get`. -/
inductive NavOutcome where
  | ok
  | timeout
  | webDriverError

/-- amazon.py lines 77-98, `safe_get`, from attempt index `attempt` with
`remaining = MAX_RETRIES - attempt` attempts (the current one included)
still to run, so that `remaining = 1` is exactly the source's
`attempt == MAX_RETRIES - 1` test: success returns True; on
`TimeoutException` or `WebDriverException` the last attempt returns
False and every earlier one sleeps `SCROLL_PAUSE_TIME * (attempt + 1)`
and retries. -/
def safe_get_go (f : Nat → NavOutcome) : Nat → Nat → Bool × List Nat
  | _, 0 => (false, [])
  | attempt, r + 1 =>
    match f attempt with
    | .ok => (true, [])
    | .timeout | .webDriverError =>
      if r = 0 then (false, [])
      else
        let rest := safe_get_go f (attempt + 1) r
        (rest.1, SCROLL_PAUSE_TIME * (attempt + 1) :: rest.2)

/-- amazon.py `safe_get`: `for attempt in range(MAX_RETRIES)` run from
its first attempt. -/
def safe_get (f : Nat → NavOutcome) : Bool × List Nat :=
  safe_get_go f 0 MAX_RETRIES

/-- Outcome of one attempt of the `get_product_details` loop body:
`safe_get` returned False (the body does `continue`), an exception was
raised, or the product dict was parsed and returned. -/
inductive DetailOutcome where
  | navFail
  | exc
  | ok (p : Row)

/-- amazon.py lines 222-271, `get_product_details`, from attempt index
`attempt` with `remaining = MAX_RETRIES - attempt` attempts still to run
(`r = 0` is the source's `attempt == MAX_RETRIES - 1` test): a `navFail`
attempt continues with no sleep; a parsed product is returned as a dict;
an exception on the last attempt returns `{}`, on an earlier attempt
sleeps `SCROLL_PAUSE_TIME * (attempt + 1)` and retries; the loop falling
through returns `{}`. -/
def get_product_details_go (g : Nat → DetailOutcome) : Nat → Nat → PyVal × List Nat
  | _, 0 => (.dict [], [])
  | attempt, r + 1 =>
    match g attempt with
    | .navFail => get_product_details_go g (attempt + 1) r
    | .ok p => (.dict p, [])
    | .exc =>
      if r = 0 then (.dict [], [])
      else
        let rest := get_product_details_go g (attempt + 1) r
        (rest.1, SCROLL_PAUSE_TIME * (attempt + 1) :: rest.2)

/-- amazon.py `get_product_details` run from its first attempt. -/
def get_product_details (g : Nat → DetailOutcome) : PyVal × List Nat :=
  get_product_details_go g 0 MAX_RETRIES

end amazon

namespace Blinkit

def MAX_RETRIES : Nat := 3
def SCROLL_PAUSE_TIME : Nat := 4

/-- Outcome of one `driver.get` attempt in `Blinkit._safe_get`: page
loaded cleanly, the page-error marker was found in the page source, an
error element was found (both return False immediately), or an exception
was raised. -/
inductive NavOutcome where
  | ok
  | pageErrorContent
  | errorElement
  | timeout
  | webDriverError

/-- Blinkit.py lines 87-121, `Blinkit._safe_get`, from attempt index
`attempt` with `remaining = MAX_RETRIES - attempt` attempts still to run
(`r = 0` is the source's `attempt == MAX_RETRIES - 1` test): success
returns True; a detected page error returns False with no retry; on
`TimeoutException` or `WebDriverException` the last attempt returns
False and every earlier one sleeps `SCROLL_PAUSE_TIME * (attempt + 1)`
and retries. -/
def safe_get_go (f : Nat → NavOutcome) : Nat → Nat → Bool × List Nat
  | _, 0 => (false, [])
  | attempt, r + 1 =>
    match f attempt with
    | .ok => (true, [])
    | .pageErrorContent => (false, [])
    | .errorElement => (false, [])
    | .timeout | .webDriverError =>
      if r = 0 then (false, [])
      else
        let rest := safe_get_go f (attempt + 1) r
        (rest.1, SCROLL_PAUSE_TIME * (attempt + 1) :: rest.2)

/-- Blinkit.py `_safe_get` run from its first attempt. -/
def safe_get (f : Nat → NavOutcome) : Bool × List Nat :=
  safe_get_go f 0 MAX_RETRIES

end Blinkit

namespace Gopal

def MAX_RETRIES : Nat := 3
def SCROLL_PAUSE_TIME : Nat := 4

/-- Outcome of one attempt of the `Gopal.get_product_details` loop body:
`_safe_get` returned False (`continue`), or an exception was raised
after appending `appended` variant records to `product_data`, or the
body returned after appending `appended`. -/
inductive DetailOutcome where
  | navFail
  | exc (appended : List Row)
  | ok (appended : List Row)

/-- Gopal.py lines 339-400, `Gopal.get_product_details`, from attempt
index `attempt` with `remaining = MAX_RETRIES - attempt` attempts still
to run (`r = 0` is the source's `attempt == MAX_RETRIES - 1` test).
`product_data` is declared before the loop, so records appended by a
failed attempt persist into later attempts; every return statement
returns the accumulated list (`acc`), including the returns on total
failure. -/
def get_product_details_go (g : Nat → DetailOutcome) : List Row → Nat → Nat → PyVal × List Nat
  | acc, _, 0 => (.list (acc.map .dict), [])
  | acc, attempt, r + 1 =>
    match g attempt with
    | .navFail => get_product_details_go g acc (attempt + 1) r
    | .ok appended => (.list ((acc ++ appended).map .dict), [])
    | .exc appended =>
      if r = 0 then (.list ((acc ++ appended).map .dict), [])
      else
        let rest := get_product_details_go g (acc ++ appended) (attempt + 1) r
        (rest.1, SCROLL_PAUSE_TIME * (attempt + 1) :: rest.2)

/-- Gopal.py `get_product_details` run from its first attempt with the
empty accumulator. -/
def get_product_details (g : Nat → DetailOutcome) : PyVal × List Nat :=
  get_product_details_go g [] 0 MAX_RETRIES

end Gopal

namespace Jiomart

def MAX_RETRIES : Nat := 3
def SCROLL_PAUSE_TIME : Nat := 4

/-- Outcome of one `driver.get` attempt in `Jiomart._safe_get`. -/
inductive NavOutcome where
  | ok
  | timeout
  | webDriverError

/-- Jiomart.py, `_safe_get` backoff (lines 231-233):
`backoff_time = (2 ** attempt) + random.uniform(1, 3)`; the jitter
sample is the second argument. -/
def backoff (attempt : Nat) (jitter : ℚ) : ℚ :=
  2 ^ attempt + jitter

/-- Jiomart.py lines 204-235, `Jiomart._safe_get`, from attempt index
`attempt` with `remaining = MAX_RETRIES - attempt` attempts still to run
(`r = 0` is the source's `attempt == MAX_RETRIES - 1` test): success
returns True (the block-detection pause on the success path is not a
retry backoff and is not collected); on `TimeoutException` or
`WebDriverException` the last attempt returns False and every earlier
one sleeps `(2 ** attempt) + random.uniform(1, 3)` and retries, with the
jitter samples supplied by `u`. -/
def safe_get_go (f : Nat → NavOutcome) (u : Nat → ℚ) : Nat → Nat → Bool × List ℚ
  | _, 0 => (false, [])
  | attempt, r + 1 =>
    match f attempt with
    | .ok => (true, [])
    | .timeout | .webDriverError =>
      if r = 0 then (false, [])
      else
        let rest := safe_get_go f u (attempt + 1) r
        (rest.1, backoff attempt (u attempt) :: rest.2)

/-- Jiomart.py `_safe_get` run from its first attempt. -/
def safe_get (f : Nat → NavOutcome) (u : Nat → ℚ) : Bool × List ℚ :=
  safe_get_go f u 0 MAX_RETRIES

end Jiomart

/-! ## Helper lemmas -/

/-- A key absent from an association list's key column looks up to none. -/
theorem lookup_eq_none_of_not_mem_keys {l : List (String × PyVal)} {c : String}
    (h : c ∉ l.map Prod.fst) : l.lookup c = none := by
  induction l with
  | nil => rfl
  | cons a t ih =>
    simp only [List.map_cons, List.mem_cons, not_or] at h
    simpa [List.lookup, beq_eq_false_iff_ne.mpr h.1] using ih h.2

/-- Membership in a conditional block that is empty when the condition
fails forces membership in the block. -/
theorem mem_of_mem_iteNil {α : Type} {p : Prop} [Decidable p] {l : List α} {c : α}
    (h : c ∈ if p then l else []) : c ∈ l ∧ p := by
  by_cases hp : p
  · exact ⟨by simpa [hp] using h, hp⟩
  · simp [hp] at h

/-! ## Claim theorems -/

/-- Claim C10: the claim says every MySQLDB operation is total over
database errors and signals failure by a sentinel (0 / False / []) —
the code does so on statement errors, but on connection failure each
method's `finally: if cursor:` epilogue references the never-assigned
local `cursor` and raises `UnboundLocalError` instead of returning the
sentinel. -/
theorem mysql_sentinel_vs_unbound_cursor :
    MySQLDB.insert_data .connFail = .exn .unboundLocalError ∧
    MySQLDB.update_data .connFail = .exn .unboundLocalError ∧
    MySQLDB._execute_query .connFail = .exn .unboundLocalError ∧
    MySQLDB.get_data .connFail = .exn .unboundLocalError ∧
    MySQLDB.insert_data .execErr = .val 0 ∧
    MySQLDB.update_data .execErr = .val false ∧
    MySQLDB._execute_query .queryErr = .val [] ∧
    MySQLDB.get_data .queryErr = .val [] ∧
    (∀ rowcount : Nat, MySQLDB.update_data (.execOk rowcount) = .val (decide (0 < rowcount))) :=
  ⟨rfl, rfl, rfl, rfl, rfl, rfl, rfl, rfl, fun _ => rfl⟩

/-- Claim C1: POST /insert returns exactly the keys id, message and
success with success = True and id the database-assigned row id when the
body is non-empty and the insert succeeded; an empty body gives 422; a
failed insert (insert_data returning 0) gives 500 and no id. -/
theorem insert_endpoint_contract :
    (∀ (data : List (String × PyVal)) (rowid : Nat), data ≠ [] → rowid ≠ 0 →
      ∃ body, insert_endpoint data (.execOk rowid) = .ok body ∧
        body.map Prod.fst = ["id", "message", "success"] ∧
        body.lookup "id" = some (.int rowid) ∧
        body.lookup "success" = some (.bool true)) ∧
    (∀ db, insert_endpoint [] db = .err 422 "JSON body is required") ∧
    (∀ data, data ≠ [] →
      insert_endpoint data .execErr = .err 500 "Failed to insert data into the database") := by
  refine ⟨?_, ?_, ?_⟩
  · intro data rowid hdata hrow
    refine ⟨[("id", .int rowid), ("message", .str "Data inserted successfully"),
             ("success", .bool true)], ?_, rfl, rfl, rfl⟩
    simp [insert_endpoint, List.isEmpty_iff, hdata, MySQLDB.insert_data, runFinally, hrow]
  · intro db
    rfl
  · intro data hdata
    simp [insert_endpoint, List.isEmpty_iff, hdata, MySQLDB.insert_data, runFinally]

/-- Claim C1 witness: the contract evaluated at a one-field body and
assigned row id 7. -/
theorem insert_endpoint_contract_witness :
    (∃ body, insert_endpoint [("name", .str "Tang")] (.execOk 7) = .ok body ∧
      body.map Prod.fst = ["id", "message", "success"] ∧
      body.lookup "id" = some (.int 7) ∧
      body.lookup "success" = some (.bool true)) ∧
    insert_endpoint [] (.execOk 7) = .err 422 "JSON body is required" ∧
    insert_endpoint [("name", .str "Tang")] .execErr =
      .err 500 "Failed to insert data into the database" :=
  ⟨insert_endpoint_contract.1 [("name", .str "Tang")] 7 (List.cons_ne_nil _ _) (by decide),
   insert_endpoint_contract.2.1 (.execOk 7),
   insert_endpoint_contract.2.2 [("name", .str "Tang")] (List.cons_ne_nil _ _)⟩

/-- Claim C8 counterexample: not every SQL statement of the database API
targets scrapped_data — /insert-url inserts into products_urls, and
/get-urls selects from products_urls. -/
theorem sqlTables_not_single_table :
    sqlTables .insertUrl = ["products_urls"] ∧
    sqlTables .getUrls = ["products_urls"] ∧
    "products_urls" ≠ "scrapped_data" :=
  ⟨rfl, rfl, by decide⟩

/-- Claim C8 (amended): every SQL statement issued by the database API
targets scrapped_data or products_urls (the truncate, delete-url and
delete endpoints call MySQLDB methods that do not exist and so raise
before issuing any SQL). -/
theorem sqlTables_amended :
    ∀ (e : Endpoint) (t : String), t ∈ sqlTables e →
      t = "scrapped_data" ∨ t = "products_urls" := by
  intro e t h
  cases e <;> simp_all [sqlTables]

/-- Claim C8 witness: the amended statement evaluated at the /insert
endpoint and its one table. -/
theorem sqlTables_amended_witness :
    "scrapped_data" = "scrapped_data" ∨ "scrapped_data" = "products_urls" :=
  sqlTables_amended .insert "scrapped_data" (by simp [sqlTables])

/-- Claim C4: a non-empty image-URL list is stored as the JSON object
with single key image_urls, and the /images endpoint's decode-and-project
round trip recovers exactly the original list; an empty or missing list
is stored as the empty string (no JSON value) instead. -/
theorem images_roundtrip :
    Blinkit.extract_image_urls_text none = none ∧
    Blinkit.extract_image_urls_text (some []) = none ∧
    (∀ urls : List String, urls ≠ [] →
      (∃ j, Blinkit.extract_image_urls_text (some urls) = some j) ∧
      get_all_images_main (Blinkit.extract_image_urls_text (some urls)) =
        .arr (urls.map .str)) := by
  refine ⟨rfl, rfl, ?_⟩
  intro urls hurls
  match urls, hurls with
  | u :: rest, _ =>
    exact ⟨⟨_, rfl⟩, by simp [Blinkit.extract_image_urls_text, get_all_images_main,
      Json.get?, List.lookup]⟩

/-- Claim C4 witness: the round trip evaluated at a two-URL list. -/
theorem images_roundtrip_witness :
    (∃ j, Blinkit.extract_image_urls_text (some ["http://a.jpg", "http://b.jpg"]) = some j) ∧
    get_all_images_main
        (Blinkit.extract_image_urls_text (some ["http://a.jpg", "http://b.jpg"])) =
      .arr [.str "http://a.jpg", .str "http://b.jpg"] :=
  images_roundtrip.2.2 ["http://a.jpg", "http://b.jpg"] (List.cons_ne_nil _ _)

/-- Claim C5: the scrapers create every record with status "raw"; of the
database API's UPDATE field sets only /image/update touches status, and
it sets "imageprocessed"; both values belong to the status enum of the
scrapped_data model. -/
theorem status_values :
    (∀ p ∈ scraperInsertStatuses, p.2 = "raw") ∧
    (∀ d, (Blinkit.product_details_import_record d).status = "raw") ∧
    "raw" ∈ status_choices ∧
    (∀ front back nutrients ingredients,
      (update_images_fields front back nutrients ingredients).lookup "status" =
        some (.str "imageprocessed")) ∧
    "imageprocessed" ∈ status_choices ∧
    (∀ bc, "status" ∉ (update_barcode_fields bc).map Prod.fst) ∧
    ("status" ∉ added_fields.map Prod.fst) ∧
    (∀ r, "status" ∉ (update_product_info_fields r).map Prod.fst) := by
  refine ⟨?_, fun _ => rfl, by decide, fun _ _ _ _ => rfl, by decide,
          fun bc => by simp [update_barcode_fields], by decide, ?_⟩
  · intro p hp
    fin_cases hp <;> rfl
  · intro r h
    by_cases h1 : truthy r.brand_name <;> by_cases h2 : truthy r.barcode <;>
      by_cases h3 : truthy r.ingredients_main_ocr <;>
      by_cases h4 : truthy r.nutrients_main_ocr <;>
      by_cases h5 : truthy r.allergen_information <;>
      simp_all [update_product_info_fields]

/-- Claim C5 witness: the per-scraper statement evaluated at the Blinkit
record literal. -/
theorem status_values_witness :
    ("Blinkit.py:262", "raw").2 = "raw" :=
  status_values.1 ("Blinkit.py:262", "raw") (by simp [scraperInsertStatuses])

/-- Claim C9: both barcode-writing endpoints put barcode_exists = 1 into
the same update that writes the barcode. -/
theorem barcode_write_sets_barcode_exists :
    (∀ bc, ("barcode", PyVal.str bc) ∈ update_barcode_fields bc ∧
           ("barcode_exists", PyVal.int 1) ∈ update_barcode_fields bc) ∧
    (∀ r : ProductInfoRequest, "barcode" ∈ (update_product_info_fields r).map Prod.fst →
      ("barcode_exists", PyVal.int 1) ∈ update_product_info_fields r) := by
  constructor
  · intro bc
    exact ⟨by simp [update_barcode_fields], by simp [update_barcode_fields]⟩
  · intro r h
    by_cases h2 : truthy r.barcode
    · simp [update_product_info_fields, h2]
    · exfalso
      by_cases h1 : truthy r.brand_name <;> by_cases h3 : truthy r.ingredients_main_ocr <;>
        by_cases h4 : truthy r.nutrients_main_ocr <;>
        by_cases h5 : truthy r.allergen_information <;>
        simp_all [update_product_info_fields]

/-- Claim C9 witness: a /productinfo/update request supplying only a
barcode also writes barcode_exists = 1. -/
theorem barcode_write_sets_barcode_exists_witness :
    ("barcode_exists", PyVal.int 1) ∈
      update_product_info_fields ⟨4, none, some "8901030", none, none, none⟩ :=
  barcode_write_sets_barcode_exists.2 ⟨4, none, some "8901030", none, none, none⟩ (by decide)

/-! ## Claim C6 -/

/-- Projection of an update outcome to the table it leaves behind (the
bad-request case never reaches the database; an all-null table stands in
for it). -/
def updatedTable : UpdateOutcome → Table
  | .badRequest _ => fun _ _ => .null
  | .applied t => t

/-- A /productinfo/update request supplying only a barcode. -/
def c6req : ProductInfoRequest := ⟨5, none, some "8901234567890", none, none, none⟩

/-- A concrete table whose every cell is the integer 0; in particular row
5 has barcode_exists = 0. -/
def c6tbl : Table := fun _ _ => PyVal.int 0

/-- Claim C6 counterexample: a request supplying only the barcode also
changes the barcode_exists column — a column that is not among the five
updatable request fields — from 0 to 1, so it is not true that every
column other than the supplied fields stays unchanged. -/
theorem update_product_info_writes_extra_column :
    updatedTable (update_product_info c6req c6tbl) 5 "barcode_exists" = PyVal.int 1 ∧
    c6tbl 5 "barcode_exists" = PyVal.int 0 ∧
    "barcode_exists" ∉ ["brand_name", "barcode", "ingredients_main_ocr",
                        "nutrients_main_ocr", "allergen_information"] ∧
    PyVal.int 1 ≠ PyVal.int 0 :=
  ⟨rfl, rfl, by decide, by simp⟩

/-- Lookup of the brand_name field among the written update fields. -/
theorem upif_lookup_brand_name (r : ProductInfoRequest) (h1 : truthy r.brand_name = true) :
    (update_product_info_fields r).lookup "brand_name" = some (.str (r.brand_name.getD "")) := by
  by_cases h2 : truthy r.barcode <;> by_cases h3 : truthy r.ingredients_main_ocr <;>
    by_cases h4 : truthy r.nutrients_main_ocr <;> by_cases h5 : truthy r.allergen_information <;>
    simp [update_product_info_fields, h1, h2, h3, h4, h5, List.lookup]

/-- Lookup of the barcode field among the written update fields. -/
theorem upif_lookup_barcode (r : ProductInfoRequest) (h2 : truthy r.barcode = true) :
    (update_product_info_fields r).lookup "barcode" = some (.str (r.barcode.getD "")) := by
  by_cases h1 : truthy r.brand_name <;> by_cases h3 : truthy r.ingredients_main_ocr <;>
    by_cases h4 : truthy r.nutrients_main_ocr <;> by_cases h5 : truthy r.allergen_information <;>
    simp [update_product_info_fields, h1, h2, h3, h4, h5, List.lookup]

/-- Lookup of the barcode_exists field among the written update fields. -/
theorem upif_lookup_barcode_exists (r : ProductInfoRequest) (h2 : truthy r.barcode = true) :
    (update_product_info_fields r).lookup "barcode_exists" = some (.int 1) := by
  by_cases h1 : truthy r.brand_name <;> by_cases h3 : truthy r.ingredients_main_ocr <;>
    by_cases h4 : truthy r.nutrients_main_ocr <;> by_cases h5 : truthy r.allergen_information <;>
    simp [update_product_info_fields, h1, h2, h3, h4, h5, List.lookup]

/-- Lookup of the ingredients field among the written update fields. -/
theorem upif_lookup_ingredients (r : ProductInfoRequest)
    (h3 : truthy r.ingredients_main_ocr = true) :
    (update_product_info_fields r).lookup "ingredients_main_ocr" =
      some (.str (r.ingredients_main_ocr.getD "")) := by
  by_cases h1 : truthy r.brand_name <;> by_cases h2 : truthy r.barcode <;>
    by_cases h4 : truthy r.nutrients_main_ocr <;> by_cases h5 : truthy r.allergen_information <;>
    simp [update_product_info_fields, h1, h2, h3, h4, h5, List.lookup]

/-- Lookup of the nutrients field among the written update fields. -/
theorem upif_lookup_nutrients (r : ProductInfoRequest)
    (h4 : truthy r.nutrients_main_ocr = true) :
    (update_product_info_fields r).lookup "nutrients_main_ocr" =
      some (.str (r.nutrients_main_ocr.getD "")) := by
  by_cases h1 : truthy r.brand_name <;> by_cases h2 : truthy r.barcode <;>
    by_cases h3 : truthy r.ingredients_main_ocr <;>
    by_cases h5 : truthy r.allergen_information <;>
    simp [update_product_info_fields, h1, h2, h3, h4, h5, List.lookup]

/-- Lookup of the allergen field among the written update fields. -/
theorem upif_lookup_allergen (r : ProductInfoRequest)
    (h5 : truthy r.allergen_information = true) :
    (update_product_info_fields r).lookup "allergen_information" =
      some (.str (r.allergen_information.getD "")) := by
  by_cases h1 : truthy r.brand_name <;> by_cases h2 : truthy r.barcode <;>
    by_cases h3 : truthy r.ingredients_main_ocr <;>
    by_cases h4 : truthy r.nutrients_main_ocr <;>
    simp [update_product_info_fields, h1, h2, h3, h4, h5, List.lookup]

/-- Claim C6 (amended): /productinfo/update writes exactly the supplied
(non-empty) fields — plus barcode_exists = 1 whenever barcode is
supplied — to the row with the request id; every other column of that
row and every other row stay unchanged, and a request supplying no
updatable field fails with 400 before any SQL runs. -/
theorem update_product_info_patch :
    ∀ (r : ProductInfoRequest) (tbl : Table),
      (∀ c, c ∈ (update_product_info_fields r).map Prod.fst ↔
        ((c = "brand_name" ∧ truthy r.brand_name = true) ∨
         ((c = "barcode" ∨ c = "barcode_exists") ∧ truthy r.barcode = true) ∨
         (c = "ingredients_main_ocr" ∧ truthy r.ingredients_main_ocr = true) ∨
         (c = "nutrients_main_ocr" ∧ truthy r.nutrients_main_ocr = true) ∨
         (c = "allergen_information" ∧ truthy r.allergen_information = true))) ∧
      (update_product_info_fields r = [] ↔
        (truthy r.brand_name = false ∧ truthy r.barcode = false ∧
         truthy r.ingredients_main_ocr = false ∧ truthy r.nutrients_main_ocr = false ∧
         truthy r.allergen_information = false)) ∧
      (update_product_info_fields r = [] → update_product_info r tbl = .badRequest 400) ∧
      (∀ t, update_product_info r tbl = .applied t →
        (∀ i c, i ≠ r.id → t i c = tbl i c) ∧
        (∀ c, c ∉ (update_product_info_fields r).map Prod.fst → t r.id c = tbl r.id c) ∧
        (truthy r.brand_name = true → t r.id "brand_name" = .str (r.brand_name.getD "")) ∧
        (truthy r.barcode = true → t r.id "barcode" = .str (r.barcode.getD "") ∧
          t r.id "barcode_exists" = .int 1) ∧
        (truthy r.ingredients_main_ocr = true →
          t r.id "ingredients_main_ocr" = .str (r.ingredients_main_ocr.getD "")) ∧
        (truthy r.nutrients_main_ocr = true →
          t r.id "nutrients_main_ocr" = .str (r.nutrients_main_ocr.getD "")) ∧
        (truthy r.allergen_information = true →
          t r.id "allergen_information" = .str (r.allergen_information.getD ""))) := by
  intro r tbl
  refine ⟨?_, ?_, ?_, ?_⟩
  · intro c
    by_cases h1 : truthy r.brand_name <;> by_cases h2 : truthy r.barcode <;>
      by_cases h3 : truthy r.ingredients_main_ocr <;>
      by_cases h4 : truthy r.nutrients_main_ocr <;>
      by_cases h5 : truthy r.allergen_information <;>
      simp [update_product_info_fields, h1, h2, h3, h4, h5] <;>
      tauto
  · by_cases h1 : truthy r.brand_name <;> by_cases h2 : truthy r.barcode <;>
      by_cases h3 : truthy r.ingredients_main_ocr <;>
      by_cases h4 : truthy r.nutrients_main_ocr <;>
      by_cases h5 : truthy r.allergen_information <;>
      simp [update_product_info_fields, h1, h2, h3, h4, h5]
  · intro h
    simp [update_product_info, h]
  · intro t ht
    by_cases hfe : (update_product_info_fields r).isEmpty
    · simp [update_product_info, hfe] at ht
    · simp only [update_product_info, hfe, Bool.false_eq_true, if_false,
        UpdateOutcome.applied.injEq] at ht
      subst ht
      refine ⟨?_, ?_, ?_, ?_, ?_, ?_, ?_⟩
      · intro i c hi
        simp [applyUpdate, hi]
      · intro c hc
        simp [applyUpdate, applyFields, lookup_eq_none_of_not_mem_keys hc]
      · intro h1
        simp [applyUpdate, applyFields, upif_lookup_brand_name r h1]
      · intro h2
        exact ⟨by simp [applyUpdate, applyFields, upif_lookup_barcode r h2],
               by simp [applyUpdate, applyFields, upif_lookup_barcode_exists r h2]⟩
      · intro h3
        simp [applyUpdate, applyFields, upif_lookup_ingredients r h3]
      · intro h4
        simp [applyUpdate, applyFields, upif_lookup_nutrients r h4]
      · intro h5
        simp [applyUpdate, applyFields, upif_lookup_allergen r h5]

/-- A /productinfo/update request supplying a brand name and an allergen
note. -/
def w6req : ProductInfoRequest := ⟨2, some "BrandX", none, none, none, some "peanuts"⟩

/-- A concrete all-null table. -/
def w6tbl : Table := fun _ _ => PyVal.null

/-- Claim C6 witness: the amended patch statement evaluated at a request
supplying brand_name and allergen_information for row 2 of an all-null
table. -/
theorem update_product_info_patch_witness :
    updatedTable (update_product_info w6req w6tbl) 2 "brand_name" = PyVal.str "BrandX" ∧
    updatedTable (update_product_info w6req w6tbl) 2 "allergen_information" =
      PyVal.str "peanuts" ∧
    updatedTable (update_product_info w6req w6tbl) 9 "brand_name" = PyVal.null ∧
    updatedTable (update_product_info w6req w6tbl) 2 "mrp" = PyVal.null := by
  have ht : update_product_info w6req w6tbl =
      .applied (applyUpdate w6tbl 2 (update_product_info_fields w6req)) := rfl
  obtain ⟨hrows, hcols, hbrand, _, _, _, hallergen⟩ :=
    (update_product_info_patch w6req w6tbl).2.2.2 _ ht
  refine ⟨?_, ?_, ?_, ?_⟩
  · rw [ht]; exact hbrand rfl
  · rw [ht]; exact hallergen rfl
  · rw [ht]; exact hrows 9 "brand_name" (by decide)
  · rw [ht]; exact hcols "mrp" (by decide)

/-- Finding in a two-element list is the evident nested conditional. -/
theorem find?_pair {α : Type} (p : α → Bool) (a b : α) :
    List.find? p [a, b] = if p a then some a else if p b then some b else none := by
  by_cases ha : p a <;> by_cases hb : p b <;> simp [List.find?, ha, hb]

/-- Claim C7: the unit normaliser maps None and "" to None, and any
other string to GRAMS when the digit-stripped lower-cased remainder
contains a gram-family variation, else to MILLILITRE when it contains a
millilitre-family variation, else to None; kilogram inputs land in
GRAMS with no quantity conversion. -/
theorem get_mass_measurement_unit_spec :
    Blinkit.get_mass_measurement_unit none = none ∧
    Blinkit.get_mass_measurement_unit (some "") = none ∧
    (∀ s : String, s ≠ "" →
      Blinkit.get_mass_measurement_unit (some s) =
        (if (["gram", "grams", "kilogram", "kilograms", "kg", "g"]).any
              (fun v => containsSub (cleanedUnit s) v.data) then some "GRAMS"
         else if (["ml", "millilitre", "millilitres", "milliliter", "milliliters",
                   "liter", "litre", "liters", "litres", "l"]).any
              (fun v => containsSub (cleanedUnit s) v.data) then some "MILLILITRE"
         else none)) ∧
    Blinkit.get_mass_measurement_unit (some "2 kilograms") = some "GRAMS" ∧
    Blinkit.get_mass_measurement_unit (some "500 ml") = some "MILLILITRE" ∧
    Blinkit.get_mass_measurement_unit (some "pack of 2") = none := by
  refine ⟨rfl, rfl, ?_, by decide, by decide, by decide⟩
  intro s hs
  simp only [Blinkit.get_mass_measurement_unit, if_neg hs, unit_mappings, find?_pair]
  by_cases hg : (["gram", "grams", "kilogram", "kilograms", "kg", "g"]).any
      (fun v => containsSub (cleanedUnit s) v.data)
  · simp only [hg, if_true]
    decide
  · simp only [hg, Bool.false_eq_true, if_false]
    by_cases hm : (["ml", "millilitre", "millilitres", "milliliter", "milliliters",
        "liter", "litre", "liters", "litres", "l"]).any
        (fun v => containsSub (cleanedUnit s) v.data)
    · simp only [hm, if_true]
      decide
    · simp only [hm, Bool.false_eq_true, if_false]

/-- Claim C7 witness: the normalisation equation evaluated at the input
string 1.5 Kg. -/
theorem get_mass_measurement_unit_spec_witness :
    Blinkit.get_mass_measurement_unit (some "1.5 Kg") =
      (if (["gram", "grams", "kilogram", "kilograms", "kg", "g"]).any
            (fun v => containsSub (cleanedUnit "1.5 Kg") v.data) then some "GRAMS"
       else if (["ml", "millilitre", "millilitres", "milliliter", "milliliters",
                 "liter", "litre", "liters", "litres", "l"]).any
            (fun v => containsSub (cleanedUnit "1.5 Kg") v.data) then some "MILLILITRE"
       else none) :=
  get_mass_measurement_unit_spec.2.2.1 "1.5 Kg" (by decide)

/-! ## Claims C2 and C3 — retry loop behaviour -/

/-- The amazon detail loop consults the outcome oracle only below the
attempt bound: oracles agreeing on the attempts still to run produce the
same result and backoff trace. -/
theorem amazon_details_go_congr (f g : Nat → amazon.DetailOutcome) :
    ∀ (r attempt : Nat), (∀ i, attempt ≤ i → i < attempt + r → f i = g i) →
      amazon.get_product_details_go f attempt r = amazon.get_product_details_go g attempt r := by
  intro r
  induction r with
  | zero => intro attempt _; rfl
  | succ r ih =>
    intro attempt h
    simp only [amazon.get_product_details_go]
    rw [h attempt (le_refl _) (by omega)]
    cases g attempt with
    | navFail => exact ih (attempt + 1) (fun i h1 h2 => h i (by omega) (by omega))
    | ok p => rfl
    | exc =>
      by_cases hr : r = 0
      · simp [hr]
      · simp only [if_neg hr]
        rw [ih (attempt + 1) (fun i h1 h2 => h i (by omega) (by omega))]

/-- When no attempt parses a product, the amazon detail loop returns the
empty dict. -/
theorem amazon_details_go_allfail (f : Nat → amazon.DetailOutcome)
    (hf : ∀ i p, f i ≠ .ok p) :
    ∀ (r attempt : Nat), (amazon.get_product_details_go f attempt r).1 = PyVal.dict [] := by
  intro r
  induction r with
  | zero => intro attempt; rfl
  | succ r ih =>
    intro attempt
    simp only [amazon.get_product_details_go]
    cases hfa : f attempt with
    | navFail => exact ih (attempt + 1)
    | ok p => exact absurd hfa (hf attempt p)
    | exc =>
      by_cases hr : r = 0
      · simp [hr]
      · simp only [if_neg hr]
        exact ih (attempt + 1)

/-- When no attempt loads the page, Blinkit._safe_get returns False. -/
theorem blinkit_safe_get_go_allfail (f : Nat → Blinkit.NavOutcome)
    (hf : ∀ i, f i ≠ .ok) :
    ∀ (r attempt : Nat), (Blinkit.safe_get_go f attempt r).1 = false := by
  intro r
  induction r with
  | zero => intro attempt; rfl
  | succ r ih =>
    intro attempt
    simp only [Blinkit.safe_get_go]
    cases hfa : f attempt with
    | ok => exact absurd hfa (hf attempt)
    | pageErrorContent => rfl
    | errorElement => rfl
    | timeout =>
      by_cases hr : r = 0
      · simp [hr]
      · simp only [if_neg hr]
        exact ih (attempt + 1)
    | webDriverError =>
      by_cases hr : r = 0
      · simp [hr]
      · simp only [if_neg hr]
        exact ih (attempt + 1)

/-- When every attempt of the Gopal detail loop fails before appending
anything, the accumulated list is returned unchanged. -/
theorem gopal_details_go_allfail (g : Nat → Gopal.DetailOutcome)
    (hg : ∀ i, g i = .navFail ∨ g i = .exc []) :
    ∀ (r attempt : Nat) (acc : List Row),
      (Gopal.get_product_details_go g acc attempt r).1 = .list (acc.map .dict) := by
  intro r
  induction r with
  | zero => intro attempt acc; rfl
  | succ r ih =>
    intro attempt acc
    simp only [Gopal.get_product_details_go]
    rcases hg attempt with h | h <;> rw [h]
    · exact ih (attempt + 1) acc
    · by_cases hr : r = 0
      · simp [hr]
      · simp only [if_neg hr]
        rw [List.append_nil]
        exact ih (attempt + 1) acc

/-- An oracle whose every attempt fails to load the page. -/
def gopalNoPages : Nat → Gopal.DetailOutcome := fun _ => .navFail

/-- Claim C2 counterexample: when every attempt of
Gopal.get_product_details fails, it returns the empty list (the
accumulated product_data), which is not the empty dict {} — so the
return-the-empty-dict policy is not uniform across all scrapers. -/
theorem gopal_returns_list_not_dict :
    (Gopal.get_product_details gopalNoPages).1 = PyVal.list [] ∧
    PyVal.list [] ≠ PyVal.dict [] :=
  ⟨rfl, fun h => PyVal.noConfusion h⟩

/-- Claim C2 (amended): every scraper sets MAX_RETRIES = 3; a detail
extraction consults at most the first 3 attempt outcomes;
amazon.get_product_details returns the empty dict when every attempt
fails and Blinkit._safe_get returns False; but Gopal.get_product_details
returns its accumulated product list — the empty list, not the empty
dict, when every attempt failed before collecting anything. -/
theorem retry_policy_amended :
    (∀ p ∈ scraperMaxRetries, p.2 = 3) ∧
    (∀ f g : Nat → amazon.DetailOutcome, (∀ i, i < amazon.MAX_RETRIES → f i = g i) →
      amazon.get_product_details f = amazon.get_product_details g) ∧
    (∀ f : Nat → amazon.DetailOutcome, (∀ i p, f i ≠ .ok p) →
      (amazon.get_product_details f).1 = PyVal.dict []) ∧
    (∀ f : Nat → Blinkit.NavOutcome, (∀ i, f i ≠ .ok) → (Blinkit.safe_get f).1 = false) ∧
    (∀ g : Nat → Gopal.DetailOutcome, (∀ i, g i = .navFail ∨ g i = .exc []) →
      (Gopal.get_product_details g).1 = PyVal.list []) := by
  refine ⟨?_, ?_, ?_, ?_, ?_⟩
  · intro p hp
    fin_cases hp <;> rfl
  · intro f g h
    exact amazon_details_go_congr f g amazon.MAX_RETRIES 0 (fun i _ h2 => h i (by omega))
  · intro f hf
    exact amazon_details_go_allfail f hf amazon.MAX_RETRIES 0
  · intro f hf
    exact blinkit_safe_get_go_allfail f hf Blinkit.MAX_RETRIES 0
  · intro g hg
    exact gopal_details_go_allfail g hg Gopal.MAX_RETRIES 0 []

/-- An amazon detail oracle whose every attempt raises. -/
def amzDetailsExc : Nat → amazon.DetailOutcome := fun _ => .exc

/-- An amazon detail oracle raising on the consulted attempts and
succeeding beyond them. -/
def amzDetailsExcPad : Nat → amazon.DetailOutcome :=
  fun i => if i < 3 then .exc else .ok []

/-- A Blinkit navigation oracle whose every attempt times out. -/
def blinkAllTimeout : Nat → Blinkit.NavOutcome := fun _ => .timeout

/-- A Gopal detail oracle whose every attempt raises before appending. -/
def gopalAllExcNil : Nat → Gopal.DetailOutcome := fun _ => .exc []

/-- Claim C2 witness: the amended retry statements evaluated at concrete
oracles. -/
theorem retry_policy_amended_witness :
    ("amazon.py:52", 3).2 = 3 ∧
    amazon.get_product_details amzDetailsExc = amazon.get_product_details amzDetailsExcPad ∧
    (amazon.get_product_details amzDetailsExc).1 = PyVal.dict [] ∧
    (Blinkit.safe_get blinkAllTimeout).1 = false ∧
    (Gopal.get_product_details gopalAllExcNil).1 = PyVal.list [] :=
  ⟨retry_policy_amended.1 ("amazon.py:52", 3) (by simp [scraperMaxRetries]),
   retry_policy_amended.2.1 amzDetailsExc amzDetailsExcPad
     (fun i hi => by
       simp only [amzDetailsExc, amzDetailsExcPad]
       exact (if_pos hi).symm),
   retry_policy_amended.2.2.1 amzDetailsExc
     (fun i p h => amazon.DetailOutcome.noConfusion h),
   retry_policy_amended.2.2.2.1 blinkAllTimeout
     (fun i h => Blinkit.NavOutcome.noConfusion h),
   retry_policy_amended.2.2.2.2 gopalAllExcNil (fun i => Or.inr rfl)⟩

/-- Each backoff of amazon.safe_get: the n-th backoff performed (0-based,
counting from the start attempt) follows the n-th attempt, which failed,
lasts SCROLL_PAUSE_TIME * (attempt index + 1), and never follows the
last attempt. -/
theorem amazon_safe_get_go_backoffs (f : Nat → amazon.NavOutcome) :
    ∀ (r attempt n d : Nat),
      (amazon.safe_get_go f attempt r).2.get? n = some d →
      d = amazon.SCROLL_PAUSE_TIME * (attempt + n + 1) ∧
      f (attempt + n) ≠ .ok ∧ attempt + n + 1 < attempt + r := by
  intro r
  induction r with
  | zero => intro attempt n d hd; simp [amazon.safe_get_go] at hd
  | succ r ih =>
    intro attempt n d hd
    simp only [amazon.safe_get_go] at hd
    revert hd
    cases hfa : f attempt <;> intro hd
    case ok => simp at hd
    case timeout | webDriverError =>
      by_cases hr : r = 0
      · simp [hr] at hd
      · simp only [if_neg hr] at hd
        cases n with
        | zero =>
          simp only [List.get?_cons_zero, Option.some.injEq] at hd
          refine ⟨?_, ?_, by omega⟩
          · rw [Nat.add_zero]
            exact hd.symm
          · rw [Nat.add_zero, hfa]
            intro h
            exact amazon.NavOutcome.noConfusion h
        | succ n =>
          simp only [List.get?_cons_succ] at hd
          obtain ⟨h1, h2, h3⟩ := ih (attempt + 1) n d hd
          refine ⟨?_, ?_, by omega⟩
          · have he : attempt + (n + 1) + 1 = attempt + 1 + n + 1 := by omega
            rw [he]
            exact h1
          · have he : attempt + (n + 1) = attempt + 1 + n := by omega
            rw [he]
            exact h2

/-- Each backoff of Blinkit._safe_get lasts
SCROLL_PAUSE_TIME * (attempt index + 1). -/
theorem blinkit_safe_get_go_backoffs (f : Nat → Blinkit.NavOutcome) :
    ∀ (r attempt n d : Nat),
      (Blinkit.safe_get_go f attempt r).2.get? n = some d →
      d = Blinkit.SCROLL_PAUSE_TIME * (attempt + n + 1) ∧ attempt + n + 1 < attempt + r := by
  intro r
  induction r with
  | zero => intro attempt n d hd; simp [Blinkit.safe_get_go] at hd
  | succ r ih =>
    intro attempt n d hd
    simp only [Blinkit.safe_get_go] at hd
    revert hd
    cases hfa : f attempt <;> intro hd
    case ok => simp at hd
    case pageErrorContent => simp at hd
    case errorElement => simp at hd
    case timeout | webDriverError =>
      by_cases hr : r = 0
      · simp [hr] at hd
      · simp only [if_neg hr] at hd
        cases n with
        | zero =>
          simp only [List.get?_cons_zero, Option.some.injEq] at hd
          refine ⟨?_, by omega⟩
          rw [Nat.add_zero]
          exact hd.symm
        | succ n =>
          simp only [List.get?_cons_succ] at hd
          obtain ⟨h1, h3⟩ := ih (attempt + 1) n d hd
          refine ⟨?_, by omega⟩
          have he : attempt + (n + 1) + 1 = attempt + 1 + n + 1 := by omega
          rw [he]
          exact h1

/-- Each backoff of Jiomart._safe_get lasts
(2 ^ attempt index) + the jitter sampled for that attempt. -/
theorem jiomart_safe_get_go_backoffs (f : Nat → Jiomart.NavOutcome) (u : Nat → ℚ) :
    ∀ (r attempt n : Nat) (d : ℚ),
      (Jiomart.safe_get_go f u attempt r).2.get? n = some d →
      d = Jiomart.backoff (attempt + n) (u (attempt + n)) ∧ attempt + n + 1 < attempt + r := by
  intro r
  induction r with
  | zero => intro attempt n d hd; simp [Jiomart.safe_get_go] at hd
  | succ r ih =>
    intro attempt n d hd
    simp only [Jiomart.safe_get_go] at hd
    revert hd
    cases hfa : f attempt <;> intro hd
    case ok => simp at hd
    case timeout | webDriverError =>
      by_cases hr : r = 0
      · simp [hr] at hd
      · simp only [if_neg hr] at hd
        cases n with
        | zero =>
          simp only [List.get?_cons_zero, Option.some.injEq] at hd
          rw [Nat.add_zero]
          exact ⟨hd.symm, by omega⟩
        | succ n =>
          simp only [List.get?_cons_succ] at hd
          obtain ⟨h1, h3⟩ := ih (attempt + 1) n d hd
          have he : attempt + (n + 1) = attempt + 1 + n := by omega
          rw [he]
          exact ⟨h1, by omega⟩

/-- A Jiomart navigation oracle whose every attempt times out. -/
def jmAllTimeout : Nat → Jiomart.NavOutcome := fun _ => .timeout

/-- A jitter oracle always sampling 2 — a value inside the support of
random.uniform(1, 3). -/
def jmJitterTwo : Nat → ℚ := fun _ => 2

/-- Claim C3 counterexample: with every attempt timing out and jitter 2,
the first backoff Jiomart._safe_get performs is (2 ^ 0) + 2 = 3 seconds,
which is not SCROLL_PAUSE_TIME * 1 = 4 — so the backoff is not the fixed
base pause multiplied by the attempt count in every scraper retry loop. -/
theorem jiomart_backoff_not_linear :
    (Jiomart.safe_get jmAllTimeout jmJitterTwo).2.get? 0 = some (Jiomart.backoff 0 2) ∧
    Jiomart.backoff 0 2 = 3 ∧
    (3 : ℚ) ≠ (Jiomart.SCROLL_PAUSE_TIME : ℚ) * 1 ∧
    (1 : ℚ) ≤ jmJitterTwo 0 ∧ jmJitterTwo 0 ≤ 3 := by
  refine ⟨rfl, by norm_num [Jiomart.backoff], by norm_num [Jiomart.SCROLL_PAUSE_TIME],
    by norm_num [jmJitterTwo], by norm_num [jmJitterTwo]⟩

/-- Claim C3 (amended): in amazon.safe_get and Blinkit._safe_get the
backoff after failed non-final attempt k (1-based) is
SCROLL_PAUSE_TIME * k, linear in the attempt number; Jiomart._safe_get
instead backs off (2 ^ (k - 1)) + random.uniform(1, 3), exponential in
the attempt number, so the linear rule does not hold uniformly. -/
theorem backoff_amended :
    (∀ (f : Nat → amazon.NavOutcome) (n d : Nat),
      (amazon.safe_get f).2.get? n = some d →
      d = amazon.SCROLL_PAUSE_TIME * (n + 1) ∧ f n ≠ .ok ∧ n + 1 < amazon.MAX_RETRIES) ∧
    (∀ (f : Nat → Blinkit.NavOutcome) (n d : Nat),
      (Blinkit.safe_get f).2.get? n = some d →
      d = Blinkit.SCROLL_PAUSE_TIME * (n + 1) ∧ n + 1 < Blinkit.MAX_RETRIES) ∧
    (∀ (f : Nat → Jiomart.NavOutcome) (u : Nat → ℚ) (n : Nat) (d : ℚ),
      (Jiomart.safe_get f u).2.get? n = some d →
      d = Jiomart.backoff n (u n) ∧ n + 1 < Jiomart.MAX_RETRIES) ∧
    (∀ (n : Nat) (q : ℚ), Jiomart.backoff n q = 2 ^ n + q) := by
  refine ⟨?_, ?_, ?_, fun _ _ => rfl⟩
  · intro f n d hd
    have h := amazon_safe_get_go_backoffs f amazon.MAX_RETRIES 0 n d hd
    simpa using h
  · intro f n d hd
    have h := blinkit_safe_get_go_backoffs f Blinkit.MAX_RETRIES 0 n d hd
    simpa using h
  · intro f u n d hd
    have h := jiomart_safe_get_go_backoffs f u Jiomart.MAX_RETRIES 0 n d hd
    simpa using h

/-- An amazon navigation oracle whose every attempt times out. -/
def amzNavAllTimeout : Nat → amazon.NavOutcome := fun _ => .timeout

/-- Claim C3 witness: the amended backoff statements evaluated at
concrete all-timeout oracles, at the first backoff each. -/
theorem backoff_amended_witness :
    ((4 : Nat) = amazon.SCROLL_PAUSE_TIME * (0 + 1) ∧ amzNavAllTimeout 0 ≠ .ok ∧
      0 + 1 < amazon.MAX_RETRIES) ∧
    (Jiomart.backoff 0 2 = Jiomart.backoff 0 (jmJitterTwo 0) ∧
      0 + 1 < Jiomart.MAX_RETRIES) :=
  ⟨backoff_amended.1 amzNavAllTimeout 0 4 (by decide),
   backoff_amended.2.2.1 jmAllTimeout jmJitterTwo 0 (Jiomart.backoff 0 2) rfl⟩

end ProductScraper






